import Mathlib

/-!
Shallow embedding of the bridging/supervision core of the tox-node
bootstrap daemon (`src/main.rs`, `src/node_config.rs`) and proofs of the
specification's claims about it.

Conventions:
* Machine integers (`u32`, bytes) are modelled as `Nat`, with an explicit
  `% 2 ^ 32` where the source arithmetic is performed on `u32`.
* Byte buffers (key files, motd strings) are `List Nat` of byte values.
* Panics / `expect` / `assert!` failures are modelled as `Except.error`.
* Unbounded mpsc channels are modelled as FIFO queues (`List`): `send`
  appends at the back, `recv` takes from the front.  `send` is a total
  function, which is the queue-model counterpart of "an unbounded send
  never blocks the producer".
* External collaborators (libsodium key derivation, the DHT packet
  handler) are passed in as function parameters: the claims only concern
  the control flow around them.
-/

namespace ToxNode

/-! ## Version encoding (`fn version`, main.rs lines 52-60) -/

/-- `fn version()` from main.rs.  The three components come from the Cargo
package version; each is asserted to be `< 1000` and the result is
`3000000000 + major*1000000 + minor*1000 + patch` computed on `u32`.
An `assert!` failure is modelled as `Except.error` with the assert's
message. -/
def version (major minor patch : Nat) : Except String Nat :=
  if 1000 ≤ major then Except.error "Invalid major version"
  else if 1000 ≤ minor then Except.error "Invalid minor version"
  else if 1000 ≤ patch then Except.error "Invalid patch version"
  else Except.ok ((3000000000 + major * 1000000 + minor * 1000 + patch) % 2 ^ 32)

/-- Inverse digit-group extraction for the version integer: the three
decimal 3-digit groups above the fixed `3` epoch digit. -/
def decode_version (v : Nat) : Nat × Nat × Nat :=
  (v / 1000000 % 1000, v / 1000 % 1000, v % 1000)

/-- Leading decimal digit of a natural number (`0` for `0`). -/
def leading_digit (v : Nat) : Nat :=
  v / 10 ^ Nat.log 10 v

/-! ## Onion bridge (`create_onion_streams`, main.rs lines 135-164) -/

/-- An unbounded mpsc channel, modelled as the FIFO queue of items that
have been sent and not yet received. -/
structure Chan (α : Type) where
  buf : List α
deriving Repr, DecidableEq

/-- A freshly created channel (`mpsc::unbounded()`): empty queue. -/
def Chan.empty {α : Type} : Chan α := ⟨[]⟩

/-- `UnboundedSender::unbounded_send`: enqueue at the back.  Total — an
unbounded channel never blocks its producer. -/
def Chan.send {α : Type} (c : Chan α) (x : α) : Chan α :=
  ⟨c.buf ++ [x]⟩

/-- Enqueue a whole list of items, in order, from a single producer. -/
def Chan.sendAll {α : Type} (c : Chan α) (xs : List α) : Chan α :=
  xs.foldl Chan.send c

/-- `UnboundedReceiver` poll: dequeue from the front, `none` when the
queue is currently empty. -/
def Chan.recv {α : Type} (c : Chan α) : Option (α × Chan α) :=
  match c.buf with
  | [] => none
  | x :: rest => some (x, ⟨rest⟩)

/-- Receive until the queue is empty, returning the items in arrival
order. -/
def Chan.drain {α : Type} (c : Chan α) : List α :=
  match c with
  | ⟨[]⟩ => []
  | ⟨x :: rest⟩ => x :: Chan.drain ⟨rest⟩
termination_by c.buf.length
decreasing_by simp

/-- The two underlying channels created by `create_onion_streams`:
`udp_onion` carries `(InnerOnionResponse, SocketAddr)` envelopes
(UDP → TCP) and `tcp_onion` carries `(OnionRequest, SocketAddr)`
envelopes (TCP → UDP). -/
inductive ChanId where
  | udpOnion
  | tcpOnion
deriving Repr, DecidableEq

/-- `struct TcpOnion`: sender half for TCP→UDP onion requests and
receiver half for UDP→TCP onion responses, identified by the underlying
channel each endpoint belongs to. -/
structure TcpOnion where
  tx : ChanId
  rx : ChanId
deriving Repr, DecidableEq

/-- `struct UdpOnion`: sender half for UDP→TCP onion responses and
receiver half for TCP→UDP onion requests. -/
structure UdpOnion where
  tx : ChanId
  rx : ChanId
deriving Repr, DecidableEq

/-- `fn create_onion_streams()`: creates the `udp_onion` and `tcp_onion`
channels and bundles their halves cross-wired, exactly as in main.rs
lines 152-164. -/
def create_onion_streams : TcpOnion × UdpOnion :=
  ({ tx := ChanId.tcpOnion, rx := ChanId.udpOnion },
   { tx := ChanId.udpOnion, rx := ChanId.tcpOnion })

/-! ## Socket addresses and address-family normalization -/

/-- `std::net::IpAddr`: a v4 address is four octets, a v6 address is
eight 16-bit segments. -/
inductive IpAddr where
  | v4 (a b c d : Nat)
  | v6 (s0 s1 s2 s3 s4 s5 s6 s7 : Nat)
deriving Repr, DecidableEq

/-- `IpAddr::is_ipv4`. -/
def IpAddr.is_ipv4 : IpAddr → Bool
  | IpAddr.v4 _ _ _ _ => true
  | _ => false

/-- `IpAddr::is_ipv6`. -/
def IpAddr.is_ipv6 : IpAddr → Bool
  | IpAddr.v6 _ _ _ _ _ _ _ _ => true
  | _ => false

/-- `std::net::Ipv4Addr::to_ipv6_mapped`: `a.b.c.d` becomes
`::ffff:a.b.c.d`, i.e. segments `0:0:0:0:0:ffff:(a*256+b):(c*256+d)`. -/
def to_ipv6_mapped (a b c d : Nat) : IpAddr :=
  IpAddr.v6 0 0 0 0 0 65535 (a * 256 + b) (c * 256 + d)

/-- `std::net::SocketAddr`: an IP address plus a port. -/
structure SocketAddr where
  ip : IpAddr
  port : Nat
deriving Repr, DecidableEq

/-- `SocketAddr::is_ipv4`. -/
def SocketAddr.is_ipv4 (s : SocketAddr) : Bool := s.ip.is_ipv4

/-- `SocketAddr::is_ipv6`. -/
def SocketAddr.is_ipv6 (s : SocketAddr) : Bool := s.ip.is_ipv6

/-! ## UDP outbound writer (`network_writer`, main.rs lines 279-293)

Packets are opaque to the writer; they are modelled as `Nat`. -/

/-- One item of the `network_writer` pipeline (main.rs lines 279-291):
the `filter` drops the item when the socket is bound v4 and the
destination is v6; the `fold` body then rewrites a v4 destination to its
v4-mapped-v6 form when the socket is bound v6, and sends.  `none` means
the envelope was silently discarded, `some` means it was passed to
`sink.send`. -/
def network_writer_step (udp_addr : SocketAddr) (item : Nat × SocketAddr) :
    Option (Nat × SocketAddr) :=
  if udp_addr.is_ipv4 && item.2.is_ipv6 then
    none
  else
    let addr :=
      if udp_addr.is_ipv6 then
        match item.2.ip with
        | IpAddr.v4 a b c d => SocketAddr.mk (to_ipv6_mapped a b c d) item.2.port
        | _ => item.2
      else item.2
    some (item.1, addr)

/-- The whole writer over a finite queue of outbound envelopes: the items
actually handed to `sink.send`, in arrival order. -/
def network_writer (udp_addr : SocketAddr) (items : List (Nat × SocketAddr)) :
    List (Nat × SocketAddr) :=
  items.filterMap (network_writer_step udp_addr)

/-! ## UDP inbound reader (`network_reader`, main.rs lines 262-277) -/

/-- One event produced by the framed UDP stream: a successfully decoded
packet (with the outcome the external `handle_packet` collaborator will
report for it), a datagram that failed to decode (`DecodeError`), or any
other socket I/O error. -/
inductive RxEvent where
  | packet (p : Nat) (addr : SocketAddr) (handlerOk : Bool)
  | decodeError
  | ioError (e : Nat)
deriving Repr, DecidableEq

/-- The `network_reader` pipeline over a finite event sequence:
`stream.then(ok).filter(drop decode errors).and_then(id).for_each(handle)`.
Decode errors are skipped; a decoded packet is handed to `handle_packet`
and the loop continues whether or not the handler succeeded (its error is
logged and swallowed by `or_else`); any other I/O error passes the filter
and terminates the loop as its failure.  Returns the packets delivered to
the handler, in order, together with the loop's final result. -/
def network_reader : List RxEvent → List (Nat × SocketAddr) × Except Nat Unit
  | [] => ([], Except.ok ())
  | RxEvent.packet p addr _ :: rest =>
    let r := network_reader rest
    ((p, addr) :: r.1, r.2)
  | RxEvent.decodeError :: rest => network_reader rest
  | RxEvent.ioError e :: _ => ([], Except.error e)

/-! ## Key material (`load_keys` / `save_keys` / `load_or_gen_keys`,
main.rs lines 72-112)

Keys are byte lists; the libsodium derivation `SecretKey::public_key` is
an external collaborator, passed in as `derive`. -/

/-- `PUBLICKEYBYTES` from the crypto collaborator. -/
def PUBLICKEYBYTES : Nat := 32

/-- `SECRETKEYBYTES` from the crypto collaborator. -/
def SECRETKEYBYTES : Nat := 32

/-- The two panics `load_keys` can raise. -/
inductive KeysError where
  /-- `read_exact` failed: the file holds fewer than 64 bytes. -/
  | readError
  /-- `assert!(pk == sk.public_key())` failed. -/
  | keyMismatch
deriving Repr, DecidableEq

/-- `fn load_keys` (main.rs lines 90-97): read exactly 64 bytes, split
into public (bytes 0..32) and secret (bytes 32..64), and assert that the
public half is derived from the secret half.  `PublicKey::from_slice` and
`SecretKey::from_slice` always succeed on their exactly-32-byte slices. -/
def load_keys (derive : List Nat → List Nat) (file : List Nat) :
    Except KeysError (List Nat × List Nat) :=
  if file.length < PUBLICKEYBYTES + SECRETKEYBYTES then
    Except.error KeysError.readError
  else
    let buf := file.take (PUBLICKEYBYTES + SECRETKEYBYTES)
    let pk := buf.take PUBLICKEYBYTES
    let sk := buf.drop PUBLICKEYBYTES
    if pk = derive sk then Except.ok (pk, sk)
    else Except.error KeysError.keyMismatch

/-- `fn save_keys` (main.rs lines 73-87): the bytes written to the keys
file, public key followed by secret key. -/
def save_keys (pk sk : List Nat) : List Nat := pk ++ sk

/-- Outcome of `File::open(keys_file)`. -/
inductive OpenResult where
  | opened (contents : List Nat)
  | notFound
  | otherError (code : Nat)
deriving Repr, DecidableEq

/-- The fatal outcomes of `load_or_gen_keys`. -/
inductive LoadError where
  /-- A panic inside `load_keys`. -/
  | keysError (e : KeysError)
  /-- `panic!("Failed to read the keys file: ...")` on any open error
  other than not-found. -/
  | openFailed (code : Nat)
deriving Repr, DecidableEq

/-- `fn load_or_gen_keys` (main.rs lines 101-112).  The second component
of a successful result records the bytes persisted to the keys file
(`none` when nothing was written). -/
def load_or_gen_keys (derive : List Nat → List Nat) (gen_pk gen_sk : List Nat)
    (r : OpenResult) :
    Except LoadError ((List Nat × List Nat) × Option (List Nat)) :=
  match r with
  | OpenResult.opened contents =>
    match load_keys derive contents with
    | Except.ok ks => Except.ok (ks, none)
    | Except.error e => Except.error (LoadError.keysError e)
  | OpenResult.notFound =>
    Except.ok ((gen_pk, gen_sk), some (save_keys gen_pk gen_sk))
  | OpenResult.otherError code => Except.error (LoadError.openFailed code)

/-! ## Transport units and the stub drains (`run_tcp` / `run_udp`,
main.rs lines 166-302) -/

/-- The slice of `CliConfig` (cli_config / node_config) that `run_tcp`
and `run_udp` branch on. -/
structure CliConfig where
  udp_addr : Option SocketAddr
  tcp_addrs : List SocketAddr
deriving Repr, DecidableEq

/-- Which of the two `Either` branches a transport unit is: the stub
bridge-drain (`Either::A`) or the full server loop (`Either::B`). -/
inductive TransportUnit where
  | stubDrain
  | active
deriving Repr, DecidableEq

/-- The branch taken by `fn run_tcp` (main.rs lines 166-174): the stub
drain exactly when `cli_config.tcp_addrs` is empty. -/
def run_tcp (cfg : CliConfig) : TransportUnit :=
  if cfg.tcp_addrs.isEmpty then TransportUnit.stubDrain else TransportUnit.active

/-- The branch taken by `fn run_udp` (main.rs lines 209-218): the stub
drain exactly when `cli_config.udp_addr` is `None`. -/
def run_udp (cfg : CliConfig) : TransportUnit :=
  match cfg.udp_addr with
  | some _ => TransportUnit.active
  | none => TransportUnit.stubDrain

/-- `Stream::for_each` over a finite run of a stream: apply `f` to each
item in order, stopping at the first error. -/
def for_each {α : Type} (f : α → Except Nat Unit) : List α → Except Nat Unit
  | [] => Except.ok ()
  | x :: xs =>
    match f x with
    | Except.ok _ => for_each f xs
    | Except.error e => Except.error e

/-- The stub drain body shared by both `Either::A` branches:
`rx.for_each(|_| future::ok(()))` — discard every envelope, never fail. -/
def stub_drain {α : Type} (incoming : List α) : Except Nat Unit :=
  for_each (fun _ => Except.ok ()) incoming

/-! ## Root supervision (`main`, main.rs lines 345-352) -/

/-- How a supervised task resolved. -/
inductive TaskOutcome where
  | ok
  | err (e : Nat)
deriving Repr, DecidableEq

/-- A completed run of a supervised task: when it resolved and with what
outcome.  A task that never completes is modelled as `Option.none` at the
use sites. -/
structure TaskRun where
  time : Nat
  out : TaskOutcome
deriving Repr, DecidableEq

/-- futures 0.1 `Future::select`: the pair resolves with whichever side
resolves first; `a` is polled first, so it wins ties. -/
def select_first (a b : Option TaskRun) : Option TaskRun :=
  match a, b with
  | none, none => none
  | some ra, none => some ra
  | none, some rb => some rb
  | some ra, some rb => if ra.time ≤ rb.time then some ra else some rb

/-- main.rs line 350:
`udp_server_future.select(tcp_server_future).map(|_| ()).map_err(|(e, _)| e)`
— the composed node task resolves with the first unit to resolve,
carrying that unit's own outcome (the losing future is dropped, never
polled again). -/
def composed_node_task (udp tcp : Option TaskRun) : Option TaskRun :=
  select_first udp tcp

/-! ## Motd CLI validator (node_config.rs lines 227-244)

Motd strings are modelled as their UTF-8 byte lists; `{` is byte 123,
`}` is byte 125, the newline is byte 10.  `String::len` is then exactly
`List.length`. -/

/-- `BOOSTRAP_SERVER_MAX_MOTD_LENGTH` from the tox crate: 256 bytes. -/
def BOOSTRAP_SERVER_MAX_MOTD_LENGTH : Nat := 256

/-- Scan for a closing `\x7d\x7d` that occurs before any newline: the
`.*\x7d\x7d` tail of the template regex, starting right after an opening
`\x7b\x7b` (the regex dot matches any character except a newline). -/
def hasCloseBraces : List Nat → Bool
  | [] => false
  | 10 :: _ => false
  | 125 :: 125 :: _ => true
  | _ :: rest => hasCloseBraces rest

/-- Does the byte list begin with an opening `\x7b\x7b` that is closed by
a `\x7d\x7d` with no intervening newline — i.e. does a match of the
template regex start at this very position? -/
def startsTemplate : List Nat → Bool
  | 123 :: 123 :: rest => hasCloseBraces rest
  | _ => false

/-- `Regex::new(r"\x7b\x7b.*\x7d\x7d").is_match(m)` over the UTF-8 bytes
of `m`: at some position an opening `\x7b\x7b` is followed, with no
intervening newline, by a closing `\x7d\x7d`.  Byte-level scanning is
faithful because `\x7b`, `\x7d` and the newline are single-byte UTF-8
characters and continuation bytes of multi-byte characters are ≥ 128. -/
def isMatchTemplate : List Nat → Bool
  | [] => false
  | x :: rest => startsTemplate (x :: rest) || isMatchTemplate rest

/-- The clap validator closure for `--motd` (node_config.rs lines
235-243): reject only when the template regex does not match and the
byte length exceeds `BOOSTRAP_SERVER_MAX_MOTD_LENGTH`. -/
def motd_validator (m : List Nat) : Except String Unit :=
  if isMatchTemplate m = false ∧ BOOSTRAP_SERVER_MAX_MOTD_LENGTH < m.length then
    Except.error "Message of the day must not be longer than 256 bytes"
  else Except.ok ()

end ToxNode

/-! Claim theorems for the version encoder. -/

/-- Helper: the encoded version value for in-range components. -/
theorem ToxNode.version_ok_of_lt (major minor patch : Nat)
    (hM : major < 1000) (hm : minor < 1000) (hp : patch < 1000) :
    ToxNode.version major minor patch =
      Except.ok (3000000000 + major * 1000000 + minor * 1000 + patch) := by
  unfold ToxNode.version
  have h32 : 3000000000 + major * 1000000 + minor * 1000 + patch < 2 ^ 32 := by
    omega
  rw [if_neg (by omega), if_neg (by omega), if_neg (by omega),
    Nat.mod_eq_of_lt h32]

/-- C8: for components `< 1000` the version integer equals
`3000000000 + major*1000000 + minor*1000 + patch`, its leading decimal
digit is `3`, and the inverse digit-group extraction recovers
`(major, minor, patch)`; a component `≥ 1000` fails the assertion. -/
theorem C8_version_encode_decode (major minor patch : Nat) :
    (major < 1000 → minor < 1000 → patch < 1000 →
      ToxNode.version major minor patch =
        Except.ok (3000000000 + major * 1000000 + minor * 1000 + patch) ∧
      ToxNode.decode_version
          (3000000000 + major * 1000000 + minor * 1000 + patch) =
        (major, minor, patch) ∧
      ToxNode.leading_digit
          (3000000000 + major * 1000000 + minor * 1000 + patch) = 3) ∧
    ((1000 ≤ major ∨ 1000 ≤ minor ∨ 1000 ≤ patch) →
      ∃ s, ToxNode.version major minor patch = Except.error s) := by
  constructor
  · intro hM hm hp
    refine ⟨ToxNode.version_ok_of_lt major minor patch hM hm hp, ?_, ?_⟩
    · unfold ToxNode.decode_version
      refine Prod.ext ?_ (Prod.ext ?_ ?_) <;> simp only <;> omega
    · unfold ToxNode.leading_digit
      have hlog : Nat.log 10 (3000000000 + major * 1000000 + minor * 1000 + patch) = 9 := by
        apply Nat.log_eq_of_pow_le_of_lt_pow <;> norm_num <;> omega
      rw [hlog]
      norm_num
      omega
  · intro h
    unfold ToxNode.version
    rcases Nat.lt_or_ge major 1000 with hM | hM
    · rcases Nat.lt_or_ge minor 1000 with hm | hm
      · rcases Nat.lt_or_ge patch 1000 with hp | hp
        · omega
        · exact ⟨"Invalid patch version", by
            rw [if_neg (by omega), if_neg (by omega), if_pos (by omega)]⟩
      · exact ⟨"Invalid minor version", by
          rw [if_neg (by omega), if_pos (by omega)]⟩
    · exact ⟨"Invalid major version", by rw [if_pos (by omega)]⟩

/-! Claim theorems for the onion bridge and the stub drains. -/

/-- Helper: `sendAll` enqueues at the back, in order. -/
theorem ToxNode.Chan.sendAll_buf {α : Type} (c : ToxNode.Chan α) (xs : List α) :
    (ToxNode.Chan.sendAll c xs).buf = c.buf ++ xs := by
  induction xs generalizing c with
  | nil => simp [ToxNode.Chan.sendAll]
  | cons x xs ih =>
    show (ToxNode.Chan.sendAll (c.send x) xs).buf = _
    rw [ih]
    simp [ToxNode.Chan.send]

/-- Helper: draining a channel by repeated `recv` yields exactly the
queue contents, in order. -/
theorem ToxNode.Chan.drain_mk {α : Type} (l : List α) :
    ToxNode.Chan.drain ⟨l⟩ = l := by
  induction l with
  | nil => rw [ToxNode.Chan.drain]
  | cons x rest ih => rw [ToxNode.Chan.drain, ih]

/-- Helper: the stub drain consumes any envelope sequence without error. -/
theorem ToxNode.stub_drain_ok {α : Type} (incoming : List α) :
    ToxNode.stub_drain incoming = Except.ok () := by
  induction incoming with
  | nil => rfl
  | cons x xs ih => simpa [ToxNode.stub_drain, ToxNode.for_each] using ih

/-- C2: `create_onion_streams` cross-wires the two channels —
`TcpOnion.tx` feeds the channel `UdpOnion.rx` reads and `UdpOnion.tx`
feeds the channel `TcpOnion.rx` reads — and on any one channel, a single
producer enqueueing any `N ≥ 0` envelopes has the paired consumer
receive exactly those envelopes, unmodified, in enqueue order, each
exactly (hence at most) once. -/
theorem C2_onion_bridge_cross_wired_fifo :
    (ToxNode.create_onion_streams.1.tx = ToxNode.create_onion_streams.2.rx ∧
     ToxNode.create_onion_streams.2.tx = ToxNode.create_onion_streams.1.rx) ∧
    (∀ (α : Type) (xs : List α),
      ToxNode.Chan.drain (ToxNode.Chan.sendAll ToxNode.Chan.empty xs) = xs) := by
  refine ⟨⟨rfl, rfl⟩, fun α xs => ?_⟩
  have hd : ∀ c : ToxNode.Chan α, ToxNode.Chan.drain c = c.buf := by
    intro c
    obtain ⟨l⟩ := c
    exact ToxNode.Chan.drain_mk l
  rw [hd, ToxNode.Chan.sendAll_buf]
  rfl

/-- C1: with no TCP listen addresses `run_tcp` is the stub drain, and
with no UDP address `run_udp` is the stub drain; the stub drain discards
every envelope from its bridge receive-half and finishes any envelope
sequence without error; and a send on the unbounded bridge channel is a
total operation (it always succeeds by appending), so the peer
transport's producer is never blocked. -/
theorem C1_stub_transports_drain (cfg : ToxNode.CliConfig) :
    (cfg.tcp_addrs = [] →
      ToxNode.run_tcp cfg = ToxNode.TransportUnit.stubDrain) ∧
    (cfg.udp_addr = none →
      ToxNode.run_udp cfg = ToxNode.TransportUnit.stubDrain) ∧
    (∀ (α : Type) (incoming : List α),
      ToxNode.stub_drain incoming = Except.ok ()) ∧
    (∀ (α : Type) (c : ToxNode.Chan α) (x : α),
      (ToxNode.Chan.send c x).buf = c.buf ++ [x]) := by
  refine ⟨fun h => ?_, fun h => ?_, fun α incoming => ToxNode.stub_drain_ok incoming,
    fun α c x => rfl⟩
  · simp [ToxNode.run_tcp, h]
  · simp [ToxNode.run_udp, h]

/-- Witness for C1: the empty configuration yields both stubs, and the
stub drains a concrete envelope sequence. -/
theorem C1_stub_transports_drain_witness :
    ToxNode.run_tcp ⟨none, []⟩ = ToxNode.TransportUnit.stubDrain ∧
    ToxNode.run_udp ⟨none, []⟩ = ToxNode.TransportUnit.stubDrain ∧
    ToxNode.stub_drain [(1, 2), (3, 4)] = Except.ok () := by
  have h := C1_stub_transports_drain ⟨none, []⟩
  exact ⟨h.1 rfl, h.2.1 rfl, h.2.2.1 _ [(1, 2), (3, 4)]⟩

/-! Claim theorems for the UDP outbound writer. -/

/-- Helper: a socket address that is v6 is not v4. -/
theorem ToxNode.SocketAddr.not_ipv4_of_ipv6 (s : ToxNode.SocketAddr)
    (h : s.is_ipv6 = true) : s.is_ipv4 = false := by
  cases s with
  | mk ip port =>
    cases ip with
    | v4 a b c d => simp [ToxNode.SocketAddr.is_ipv6, ToxNode.IpAddr.is_ipv6] at h
    | v6 s0 s1 s2 s3 s4 s5 s6 s7 =>
      simp [ToxNode.SocketAddr.is_ipv4, ToxNode.IpAddr.is_ipv4]

/-- C3: when the socket is bound to a v6 address, an outbound packet
destined to a v4 address is not dropped: it is sent with the destination
rewritten to the IPv4-mapped-IPv6 form of the same IPv4 address, the
port unchanged and the payload unchanged. -/
theorem C3_v4_destination_mapped_on_v6_socket (udp_addr : ToxNode.SocketAddr)
    (pkt a b c d port : Nat) (h : udp_addr.is_ipv6 = true) :
    ToxNode.network_writer_step udp_addr
        (pkt, ⟨ToxNode.IpAddr.v4 a b c d, port⟩) =
      some (pkt, ⟨ToxNode.to_ipv6_mapped a b c d, port⟩) := by
  unfold ToxNode.network_writer_step
  rw [ToxNode.SocketAddr.not_ipv4_of_ipv6 udp_addr h]
  simp [h]

/-- Witness for C3 at a concrete v6-bound socket and v4 destination. -/
theorem C3_v4_destination_mapped_on_v6_socket_witness :
    ToxNode.network_writer_step
        ⟨ToxNode.IpAddr.v6 0 0 0 0 0 0 0 0, 33445⟩
        (7, ⟨ToxNode.IpAddr.v4 1 2 3 4, 5678⟩) =
      some (7, ⟨ToxNode.IpAddr.v6 0 0 0 0 0 65535 258 772, 5678⟩) :=
  C3_v4_destination_mapped_on_v6_socket
    ⟨ToxNode.IpAddr.v6 0 0 0 0 0 0 0 0, 33445⟩ 7 1 2 3 4 5678 rfl

/-- C4 counterexample: on a socket bound to the v6 wildcard address, an
envelope destined to the v4 address `1.2.3.4:5678` is not dropped — the
writer sends it to `[::ffff:1.2.3.4]:5678` — refuting the claim that a
v6-bound socket silently drops v4-destined envelopes. -/
theorem C4_counterexample :
    ToxNode.network_writer_step
        ⟨ToxNode.IpAddr.v6 0 0 0 0 0 0 0 0, 33445⟩
        (7, ⟨ToxNode.IpAddr.v4 1 2 3 4, 5678⟩) ≠ none ∧
    ToxNode.network_writer_step
        ⟨ToxNode.IpAddr.v6 0 0 0 0 0 0 0 0, 33445⟩
        (7, ⟨ToxNode.IpAddr.v4 1 2 3 4, 5678⟩) =
      some (7, ⟨ToxNode.IpAddr.v6 0 0 0 0 0 65535 258 772, 5678⟩) := by
  constructor
  · intro h
    exact Option.noConfusion h
  · rfl

/-- C4 (amended): the silent family-incompatibility drop goes the other
way — when the bound socket is v4, every envelope destined to a v6
address is silently discarded by the writer's filter (it reaches neither
`sink.send` nor any error path), while a v4-destined envelope on a
v6-bound socket is rewritten and sent. -/
theorem C4_v6_destination_dropped_on_v4_socket (udp_addr : ToxNode.SocketAddr)
    (pkt : Nat) (addr : ToxNode.SocketAddr)
    (h4 : udp_addr.is_ipv4 = true) (h6 : addr.is_ipv6 = true) :
    ToxNode.network_writer_step udp_addr (pkt, addr) = none ∧
    ToxNode.network_writer udp_addr [(pkt, addr)] = [] := by
  have hstep : ToxNode.network_writer_step udp_addr (pkt, addr) = none := by
    unfold ToxNode.network_writer_step
    simp [h4, h6]
  exact ⟨hstep, by simp [ToxNode.network_writer, hstep]⟩

/-- Witness for the amended C4 at a concrete v4-bound socket and v6
destination. -/
theorem C4_v6_destination_dropped_on_v4_socket_witness :
    ToxNode.network_writer_step ⟨ToxNode.IpAddr.v4 0 0 0 0, 33445⟩
        (7, ⟨ToxNode.IpAddr.v6 0 0 0 0 0 0 0 1, 5678⟩) = none ∧
    ToxNode.network_writer ⟨ToxNode.IpAddr.v4 0 0 0 0, 33445⟩
        [(7, ⟨ToxNode.IpAddr.v6 0 0 0 0 0 0 0 1, 5678⟩)] = [] :=
  C4_v6_destination_dropped_on_v4_socket ⟨ToxNode.IpAddr.v4 0 0 0 0, 33445⟩ 7
    ⟨ToxNode.IpAddr.v6 0 0 0 0 0 0 0 1, 5678⟩ rfl rfl

/-- Witness for C8 at `(0, 1, 2)` and at an out-of-range major. -/
theorem C8_version_encode_decode_witness :
    ToxNode.version 0 1 2 = Except.ok 3000001002 ∧
    ToxNode.decode_version 3000001002 = (0, 1, 2) ∧
    ToxNode.leading_digit 3000001002 = 3 ∧
    (∃ s, ToxNode.version 1000 0 0 = Except.error s) := by
  have h := (C8_version_encode_decode 0 1 2).1 (by decide) (by decide) (by decide)
  have h2 := (C8_version_encode_decode 1000 0 0).2 (Or.inl (le_refl 1000))
  exact ⟨h.1, h.2.1, h.2.2, h2⟩

/-! Claim theorems for the root supervision. -/

/-- C5: the composed node task built by `main` from the UDP unit and the
TCP unit has first-failure-wins semantics: when a unit fails and its
failure is the first event to occur (the other unit has not resolved
earlier — for the TCP unit, not earlier nor simultaneously, since the
UDP future is polled first), the composed task resolves with exactly
that unit's error, unmasked and unretried. -/
theorem C5_first_failure_wins (udp tcp : Option ToxNode.TaskRun) (t e : Nat) :
    (udp = some ⟨t, ToxNode.TaskOutcome.err e⟩ →
      (∀ r, tcp = some r → t ≤ r.time) →
      ToxNode.composed_node_task udp tcp =
        some ⟨t, ToxNode.TaskOutcome.err e⟩) ∧
    (tcp = some ⟨t, ToxNode.TaskOutcome.err e⟩ →
      (∀ r, udp = some r → t < r.time) →
      ToxNode.composed_node_task udp tcp =
        some ⟨t, ToxNode.TaskOutcome.err e⟩) := by
  constructor
  · intro hu hfirst
    subst hu
    cases tcp with
    | none => rfl
    | some rb =>
      have hle := hfirst rb rfl
      simp [ToxNode.composed_node_task, ToxNode.select_first, hle]
  · intro ht hfirst
    subst ht
    cases udp with
    | none => rfl
    | some ra =>
      have hlt := hfirst ra rfl
      simp [ToxNode.composed_node_task, ToxNode.select_first]
      omega

/-- Witness for C5: a UDP failure at time 1 with the TCP unit still
pending, and a TCP failure at time 2 with the UDP unit resolving later. -/
theorem C5_first_failure_wins_witness :
    ToxNode.composed_node_task (some ⟨1, ToxNode.TaskOutcome.err 42⟩) none =
      some ⟨1, ToxNode.TaskOutcome.err 42⟩ ∧
    ToxNode.composed_node_task (some ⟨5, ToxNode.TaskOutcome.ok⟩)
        (some ⟨2, ToxNode.TaskOutcome.err 7⟩) =
      some ⟨2, ToxNode.TaskOutcome.err 7⟩ := by
  constructor
  · exact (C5_first_failure_wins (some ⟨1, ToxNode.TaskOutcome.err 42⟩) none 1 42).1
      rfl (fun r h => by cases h)
  · exact (C5_first_failure_wins (some ⟨5, ToxNode.TaskOutcome.ok⟩)
        (some ⟨2, ToxNode.TaskOutcome.err 7⟩) 2 7).2
      rfl (fun r h => by cases h; decide)

/-! Claim theorems for the key material. -/

/-- C6: on a 64-byte key-file buffer whose public half (bytes 0..32) is
not derived from its secret half (bytes 32..64), `load_keys` fails with
the key-mismatch assertion; on a shorter file it fails with the read
error; and it returns a key pair only when the derivation-consistency
invariant holds. -/
theorem C6_load_keys_mismatch (derive : List Nat → List Nat)
    (file : List Nat) :
    (file.length = 64 → file.take 32 ≠ derive (file.drop 32) →
      ToxNode.load_keys derive file =
        Except.error ToxNode.KeysError.keyMismatch) ∧
    (file.length < 64 →
      ToxNode.load_keys derive file =
        Except.error ToxNode.KeysError.readError) ∧
    (∀ pk sk, ToxNode.load_keys derive file = Except.ok (pk, sk) →
      pk = derive sk) := by
  refine ⟨fun hlen hne => ?_, fun hlen => ?_, fun pk sk hok => ?_⟩
  · have htake : file.take 64 = file := List.take_of_length_le (by omega)
    unfold ToxNode.load_keys
    rw [if_neg (by simp [ToxNode.PUBLICKEYBYTES, ToxNode.SECRETKEYBYTES]; omega)]
    simp only [ToxNode.PUBLICKEYBYTES, ToxNode.SECRETKEYBYTES, htake]
    rw [if_neg hne]
  · unfold ToxNode.load_keys
    rw [if_pos (by simp [ToxNode.PUBLICKEYBYTES, ToxNode.SECRETKEYBYTES]; omega)]
  · unfold ToxNode.load_keys at hok
    by_cases hlen : file.length < ToxNode.PUBLICKEYBYTES + ToxNode.SECRETKEYBYTES
    · rw [if_pos hlen] at hok
      exact absurd hok (by simp)
    · rw [if_neg hlen] at hok
      by_cases heq : (file.take (ToxNode.PUBLICKEYBYTES + ToxNode.SECRETKEYBYTES)).take
          ToxNode.PUBLICKEYBYTES =
        derive ((file.take (ToxNode.PUBLICKEYBYTES + ToxNode.SECRETKEYBYTES)).drop
          ToxNode.PUBLICKEYBYTES)
      · rw [if_pos heq] at hok
        have h1 := Except.ok.inj hok
        have hpk := congrArg Prod.fst h1
        have hsk := congrArg Prod.snd h1
        simp only at hpk hsk
        rw [← hpk, ← hsk]
        exact heq
      · rw [if_neg heq] at hok
        exact absurd hok (by simp)

/-- Witness for C6: a mismatched 64-byte buffer fails with key-mismatch,
a 10-byte buffer fails with the read error, and a consistent buffer
loads a pair satisfying the invariant. -/
theorem C6_load_keys_mismatch_witness :
    ToxNode.load_keys (fun l => l.map (· + 1)) (List.replicate 64 0) =
      Except.error ToxNode.KeysError.keyMismatch ∧
    ToxNode.load_keys (fun l => l.map (· + 1)) (List.replicate 10 0) =
      Except.error ToxNode.KeysError.readError ∧
    List.replicate 32 1 = (fun l => l.map (· + 1)) (List.replicate 32 0) := by
  refine ⟨(C6_load_keys_mismatch (fun l => l.map (· + 1))
      (List.replicate 64 0)).1 (by simp) (by decide), ?_, ?_⟩
  · exact (C6_load_keys_mismatch (fun l => l.map (· + 1))
      (List.replicate 10 0)).2.1 (by simp)
  · exact (C6_load_keys_mismatch (fun l => l.map (· + 1))
      (List.replicate 32 1 ++ List.replicate 32 0)).2.2
      (List.replicate 32 1) (List.replicate 32 0) (by rfl)

/-- C7: `load_or_gen_keys` distinguishes the three open outcomes: a
successful open hands the contents to `load_keys` (returning its pair,
writing nothing, or propagating its failure); a not-found error
generates a fresh pair and persists it (public then secret) to the file
before returning it; any other open error is fatal, neither masked nor
retried. -/
theorem C7_load_or_gen_keys_cases (derive : List Nat → List Nat)
    (gen_pk gen_sk contents : List Nat) (code : Nat) :
    (∀ ks, ToxNode.load_keys derive contents = Except.ok ks →
      ToxNode.load_or_gen_keys derive gen_pk gen_sk
          (ToxNode.OpenResult.opened contents) = Except.ok (ks, none)) ∧
    (∀ e, ToxNode.load_keys derive contents = Except.error e →
      ToxNode.load_or_gen_keys derive gen_pk gen_sk
          (ToxNode.OpenResult.opened contents) =
        Except.error (ToxNode.LoadError.keysError e)) ∧
    (ToxNode.load_or_gen_keys derive gen_pk gen_sk ToxNode.OpenResult.notFound =
      Except.ok ((gen_pk, gen_sk), some (ToxNode.save_keys gen_pk gen_sk))) ∧
    (ToxNode.load_or_gen_keys derive gen_pk gen_sk
        (ToxNode.OpenResult.otherError code) =
      Except.error (ToxNode.LoadError.openFailed code)) := by
  refine ⟨fun ks hok => ?_, fun e herr => ?_, rfl, rfl⟩
  · simp only [ToxNode.load_or_gen_keys]
    rw [hok]
  · simp only [ToxNode.load_or_gen_keys]
    rw [herr]

/-- Witness for C7: concrete open outcomes through all three branches. -/
theorem C7_load_or_gen_keys_cases_witness :
    ToxNode.load_or_gen_keys (fun l => l) [5] [6]
        (ToxNode.OpenResult.opened (List.replicate 64 0)) =
      Except.ok ((List.replicate 32 0, List.replicate 32 0), none) ∧
    ToxNode.load_or_gen_keys (fun l => l) [5] [6]
        (ToxNode.OpenResult.opened [1, 2, 3]) =
      Except.error (ToxNode.LoadError.keysError ToxNode.KeysError.readError) ∧
    ToxNode.load_or_gen_keys (fun l => l) [5] [6] ToxNode.OpenResult.notFound =
      Except.ok (([5], [6]), some [5, 6]) ∧
    ToxNode.load_or_gen_keys (fun l => l) [5] [6]
        (ToxNode.OpenResult.otherError 13) =
      Except.error (ToxNode.LoadError.openFailed 13) := by
  have h := C7_load_or_gen_keys_cases (fun l => l) [5] [6]
    (List.replicate 64 0) 13
  have h2 := C7_load_or_gen_keys_cases (fun l => l) [5] [6] [1, 2, 3] 13
  exact ⟨h.1 (List.replicate 32 0, List.replicate 32 0) (by rfl),
    h2.2.1 ToxNode.KeysError.readError (by rfl), h.2.2.1, h.2.2.2⟩

/-! Claim theorems for the UDP inbound reader. -/

/-- Helper: the first socket I/O error terminates the reader loop with
exactly that error, whatever came before it. -/
theorem ToxNode.network_reader_io_error (pre : List ToxNode.RxEvent) (e : Nat)
    (post : List ToxNode.RxEvent)
    (hpre : ∀ e', ToxNode.RxEvent.ioError e' ∉ pre) :
    (ToxNode.network_reader (pre ++ ToxNode.RxEvent.ioError e :: post)).2 =
      Except.error e := by
  induction pre with
  | nil => rfl
  | cons x rest ih =>
    have hrest : ∀ e', ToxNode.RxEvent.ioError e' ∉ rest := fun e' hm =>
      hpre e' (List.mem_cons_of_mem _ hm)
    cases x with
    | packet p addr b => simpa [ToxNode.network_reader] using ih hrest
    | decodeError => simpa [ToxNode.network_reader] using ih hrest
    | ioError e'' => exact absurd (List.mem_cons_self _ _) (hpre e'')

/-- Helper: with no socket I/O error in the event sequence the reader
loop finishes without error, having skipped exactly the decode errors
and handed every decoded packet to the handler in order — regardless of
per-packet handler outcomes. -/
theorem ToxNode.network_reader_no_io_error (events : List ToxNode.RxEvent)
    (h : ∀ e, ToxNode.RxEvent.ioError e ∉ events) :
    (ToxNode.network_reader events).2 = Except.ok () ∧
    (ToxNode.network_reader events).1 =
      events.filterMap (fun ev =>
        match ev with
        | ToxNode.RxEvent.packet p addr _ => some (p, addr)
        | _ => none) := by
  induction events with
  | nil => exact ⟨rfl, rfl⟩
  | cons x rest ih =>
    have hrest : ∀ e, ToxNode.RxEvent.ioError e ∉ rest := fun e hm =>
      h e (List.mem_cons_of_mem _ hm)
    have ⟨ih2, ih1⟩ := ih hrest
    cases x with
    | packet p addr b =>
      refine ⟨by simpa [ToxNode.network_reader] using ih2, ?_⟩
      simp [ToxNode.network_reader, List.filterMap_cons, ih1]
    | decodeError =>
      exact ⟨by simpa [ToxNode.network_reader] using ih2,
        by simpa [ToxNode.network_reader, List.filterMap_cons] using ih1⟩
    | ioError e => exact absurd (List.mem_cons_self _ _) (h e)

/-- C9: in the UDP inbound loop a datagram that fails to decode is
dropped and the loop continues, a per-packet handler error is swallowed
and the loop continues (every decoded packet, and only those, reaches
the handler, in order), and only a socket I/O error that is not a decode
error terminates the loop, propagating as its failure. -/
theorem C9_network_reader_error_policy (events : List ToxNode.RxEvent) :
    ((∀ e, ToxNode.RxEvent.ioError e ∉ events) →
      (ToxNode.network_reader events).2 = Except.ok () ∧
      (ToxNode.network_reader events).1 =
        events.filterMap (fun ev =>
          match ev with
          | ToxNode.RxEvent.packet p addr _ => some (p, addr)
          | _ => none)) ∧
    (∀ pre e post, events = pre ++ ToxNode.RxEvent.ioError e :: post →
      (∀ e', ToxNode.RxEvent.ioError e' ∉ pre) →
      (ToxNode.network_reader events).2 = Except.error e) := by
  refine ⟨fun h => ToxNode.network_reader_no_io_error events h,
    fun pre e post hsplit hpre => ?_⟩
  rw [hsplit]
  exact ToxNode.network_reader_io_error pre e post hpre

/-- Witness for C9: a concrete run with a dropped decode error, a
handler failure that is swallowed, and a run cut short by an I/O
error. -/
theorem C9_network_reader_error_policy_witness :
    (ToxNode.network_reader
        [ToxNode.RxEvent.decodeError,
         ToxNode.RxEvent.packet 1 ⟨ToxNode.IpAddr.v4 127 0 0 1, 33445⟩ true,
         ToxNode.RxEvent.packet 2 ⟨ToxNode.IpAddr.v4 127 0 0 1, 33445⟩ false]).2 =
      Except.ok () ∧
    (ToxNode.network_reader
        [ToxNode.RxEvent.decodeError,
         ToxNode.RxEvent.packet 1 ⟨ToxNode.IpAddr.v4 127 0 0 1, 33445⟩ true,
         ToxNode.RxEvent.packet 2 ⟨ToxNode.IpAddr.v4 127 0 0 1, 33445⟩ false]).1 =
      [(1, ⟨ToxNode.IpAddr.v4 127 0 0 1, 33445⟩),
       (2, ⟨ToxNode.IpAddr.v4 127 0 0 1, 33445⟩)] ∧
    (ToxNode.network_reader
        [ToxNode.RxEvent.decodeError, ToxNode.RxEvent.ioError 9,
         ToxNode.RxEvent.packet 3 ⟨ToxNode.IpAddr.v4 127 0 0 1, 33445⟩ true]).2 =
      Except.error 9 := by
  have h1 := (C9_network_reader_error_policy
      [ToxNode.RxEvent.decodeError,
       ToxNode.RxEvent.packet 1 ⟨ToxNode.IpAddr.v4 127 0 0 1, 33445⟩ true,
       ToxNode.RxEvent.packet 2 ⟨ToxNode.IpAddr.v4 127 0 0 1, 33445⟩ false]).1
    (by intro e; simp)
  have h2 := (C9_network_reader_error_policy
      [ToxNode.RxEvent.decodeError, ToxNode.RxEvent.ioError 9,
       ToxNode.RxEvent.packet 3 ⟨ToxNode.IpAddr.v4 127 0 0 1, 33445⟩ true]).2
    [ToxNode.RxEvent.decodeError] 9
    [ToxNode.RxEvent.packet 3 ⟨ToxNode.IpAddr.v4 127 0 0 1, 33445⟩ true]
    rfl (by intro e; simp)
  exact ⟨h1.1, by rw [h1.2]; rfl, h2⟩

/-! Claim theorem for the motd CLI validator. -/

/-- C10: the motd validator enforces the 256-byte maximum only on
strings the template regex does not match: every string matching the
template regex is accepted regardless of its length, and a non-matching
string is accepted exactly when its byte length is at most 256. -/
theorem C10_motd_template_bypasses_length (m : List Nat) :
    (ToxNode.isMatchTemplate m = true →
      ToxNode.motd_validator m = Except.ok ()) ∧
    (ToxNode.isMatchTemplate m = false →
      (ToxNode.motd_validator m = Except.ok () ↔ m.length ≤ 256)) := by
  constructor
  · intro h
    unfold ToxNode.motd_validator
    rw [if_neg]
    intro hc
    rw [h] at hc
    exact Bool.noConfusion hc.1
  · intro h
    unfold ToxNode.motd_validator
    by_cases hlen : ToxNode.BOOSTRAP_SERVER_MAX_MOTD_LENGTH < m.length
    · rw [if_pos ⟨h, hlen⟩]
      refine ⟨fun hcontra => absurd hcontra (by simp), fun hle => ?_⟩
      simp only [ToxNode.BOOSTRAP_SERVER_MAX_MOTD_LENGTH] at hlen
      omega
    · rw [if_neg (fun hc => hlen hc.2)]
      simp only [ToxNode.BOOSTRAP_SERVER_MAX_MOTD_LENGTH] at hlen
      exact ⟨fun _ => by omega, fun _ => rfl⟩

set_option maxRecDepth 4000 in
/-- Witness for C10: a 304-byte motd containing a template variable is
accepted even though it exceeds the 256-byte limit. -/
theorem C10_motd_template_bypasses_length_witness :
    ToxNode.isMatchTemplate
        (123 :: 123 :: (List.replicate 300 97 ++ [125, 125])) = true ∧
    (123 :: 123 :: (List.replicate 300 97 ++ [125, 125])).length = 304 ∧
    ToxNode.motd_validator
        (123 :: 123 :: (List.replicate 300 97 ++ [125, 125])) =
      Except.ok () := by
  have hm : ToxNode.isMatchTemplate
      (123 :: 123 :: (List.replicate 300 97 ++ [125, 125])) = true := by decide
  exact ⟨hm, by simp,
    (C10_motd_template_bypasses_length
      (123 :: 123 :: (List.replicate 300 97 ++ [125, 125]))).1 hm⟩
